import Mathlib

/-!
Shallow embedding of `water_props_api.py` (EasyTechCalculators – Water
Properties API).  Floats are modelled as rationals; the external
equation-of-state evaluator (CoolProp `PropsSI`) and the scipy solvers
(`brentq` iteration, `fsolve`) are modelled as black-box parameters
bundled in an `Externals` structure.  A Python exception raised by a
library call is modelled as `Option` failure / `Except.error`; a FastAPI
`HTTPException(status, detail)` is `Err.http status detail`, and any
other uncaught Python exception is `Err.unhandled msg` (which FastAPI
surfaces as a 500 server error, never a 4xx client error).
-/

namespace WaterProps

/-- An input slot of `CP.PropsSI`: either a numeric value or a string
(the source passes the string "solid" for the `phase` input). -/
inductive PropVal where
  | num (q : ℚ)
  | str (s : String)
deriving DecidableEq

/-- The external black boxes the source calls into: `CP.PropsSI`
(returning `none` when CoolProp raises), the value scipy's `brentq`
iteration would return once its sign-change precondition passed
(`Except.error` when the iteration itself raises, e.g. fails to
converge), and scipy's `fsolve` on a 2-d system. -/
structure Externals where
  propsSI : String → String → PropVal → String → PropVal → Option ℚ
  brentqIter : (ℚ → Option ℚ) → ℚ → ℚ → Except String ℚ
  fsolveRes : (ℚ × ℚ → Option (ℚ × ℚ)) → ℚ × ℚ → Except String (ℚ × ℚ)

/-- Outcome of a request: a FastAPI `HTTPException` carrying a status
code and detail message, or an uncaught Python exception. -/
inductive Err where
  | http (status : ℕ) (detail : String)
  | unhandled (msg : String)
deriving DecidableEq

/-- How FastAPI surfaces an outcome: an `HTTPException` keeps its status
(client error when < 500); any other exception becomes a 500. -/
def isClientError : Err → Bool
  | Err.http s _ => decide (s < 500)
  | Err.unhandled _ => false

/-- `scipy.optimize.brentq(f, a, b)`: evaluates the objective at both
endpoints, raises `ValueError` when they have the same (nonzero) sign,
otherwise runs the external iteration.  An exception inside the
objective callback propagates. -/
def brentq (E : Externals) (f : ℚ → Option ℚ) (a b : ℚ) : Except Err ℚ :=
  match f a, f b with
  | some fa, some fb =>
      if 0 < fa * fb then
        Except.error (Err.unhandled "ValueError: f(a) and f(b) must have different signs")
      else
        match E.brentqIter f a b with
        | Except.ok r => Except.ok r
        | Except.error m => Except.error (Err.unhandled m)
  | _, _ => Except.error (Err.unhandled "exception raised in brentq objective")

/-- `melting_temperature(P)`: CoolProp melting-line query with a
blanket `except: return 273.15` fallback. -/
def melting_temperature (E : Externals) (P : ℚ) : ℚ :=
  (E.propsSI "T" "P" (PropVal.num P) "phase" (PropVal.str "solid")).getD 273.15

/-- `detect_phase_PT(P, T)`: saturation-temperature query (propagating
CoolProp failure) followed by the four-way phase decision. -/
def detect_phase_PT (E : Externals) (P T : ℚ) : Except Err String :=
  let Tm := melting_temperature E P
  match E.propsSI "T" "P" (PropVal.num P) "Q" (PropVal.num 0) with
  | none => Except.error (Err.unhandled "OracleError in saturation query")
  | some Tsat =>
      if T < Tm then Except.ok "ice"
      else if |T - Tsat| < 1/1000 then Except.ok "saturated"
      else if Tsat < T then Except.ok "superheated_vapor"
      else Except.ok "subcooled_liquid"

/-- `prop(name, P, T)`: direct CoolProp property lookup at (P, T). -/
def prop (E : Externals) (name : String) (P T : ℚ) : Except Err ℚ :=
  match E.propsSI name "P" (PropVal.num P) "T" (PropVal.num T) with
  | some v => Except.ok v
  | none => Except.error (Err.unhandled "OracleError in property query")

/-- `solve_PT(v1, v2)`: the values are taken positionally as (P, T). -/
def solve_PT (v1 v2 : ℚ) : ℚ × ℚ :=
  (v1, v2)

/-- The value-magnitude role heuristic shared by `solve_Px`,
`solve_Ph`, `solve_Ps` and `solve_rhoT`: `v1 if v1 > 1 else v2`. -/
def roleOver1 (v1 v2 : ℚ) : ℚ :=
  if 1 < v1 then v1 else v2

/-- The other value under the threshold-1 heuristic:
`v2 if picked == v1 else v1`. -/
def roleOther1 (v1 v2 : ℚ) : ℚ :=
  if roleOver1 v1 v2 = v1 then v2 else v1

/-- The threshold-200 role heuristic of `solve_Tx`:
`v1 if v1 > 200 else v2`. -/
def roleOver200 (v1 v2 : ℚ) : ℚ :=
  if 200 < v1 then v1 else v2

/-- The other value under the threshold-200 heuristic. -/
def roleOther200 (v1 v2 : ℚ) : ℚ :=
  if roleOver200 v1 v2 = v1 then v2 else v1

/-- `solve_Px(v1, v2)`: magnitude heuristic (`P = v1 if v1 > 1 else
v2`, quality is the other value), quality range check, then a direct
saturation-curve query for T. -/
def solve_Px (E : Externals) (v1 v2 : ℚ) : Except Err (ℚ × ℚ × ℚ) :=
  let P := roleOver1 v1 v2
  let x := roleOther1 v1 v2
  if ¬ (0 ≤ x ∧ x ≤ 1) then
    Except.error (Err.http 400 "Quality must be between 0 and 1")
  else
    match E.propsSI "T" "P" (PropVal.num P) "Q" (PropVal.num x) with
    | some T => Except.ok (P, T, x)
    | none => Except.error (Err.unhandled "OracleError in Px query")

/-- `solve_Tx(v1, v2)`: same shape with threshold 200 for the
temperature, then a direct saturation-curve query for P. -/
def solve_Tx (E : Externals) (v1 v2 : ℚ) : Except Err (ℚ × ℚ × ℚ) :=
  let T := roleOver200 v1 v2
  let x := roleOther200 v1 v2
  if ¬ (0 ≤ x ∧ x ≤ 1) then
    Except.error (Err.http 400 "Quality must be between 0 and 1")
  else
    match E.propsSI "P" "T" (PropVal.num T) "Q" (PropVal.num x) with
    | some P => Except.ok (P, T, x)
    | none => Except.error (Err.unhandled "OracleError in Tx query")

/-- `solve_Ph(v1, v2)`: heuristic role assignment, then a bracketed
root find for T over [250, 2000] on the enthalpy residual. -/
def solve_Ph (E : Externals) (v1 v2 : ℚ) : Except Err (ℚ × ℚ) :=
  let P := roleOver1 v1 v2
  let h_target := roleOther1 v1 v2
  let f := fun T => (E.propsSI "H" "P" (PropVal.num P) "T" (PropVal.num T)).map (fun v => v - h_target)
  (brentq E f 250 2000).map (fun T => (P, T))

/-- `solve_Ps(v1, v2)`: like `solve_Ph` with the entropy residual. -/
def solve_Ps (E : Externals) (v1 v2 : ℚ) : Except Err (ℚ × ℚ) :=
  let P := roleOver1 v1 v2
  let s_target := roleOther1 v1 v2
  let f := fun T => (E.propsSI "S" "P" (PropVal.num P) "T" (PropVal.num T)).map (fun v => v - s_target)
  (brentq E f 250 2000).map (fun T => (P, T))

/-- `solve_hs(h, s)`: 2-d `fsolve` on the simultaneous (H, S) residuals
from the fixed initial guess (1e5, 500); a callback exception or solver
exception propagates unhandled. -/
def solve_hs (E : Externals) (h s : ℚ) : Except Err (ℚ × ℚ) :=
  let eqns := fun (v : ℚ × ℚ) =>
    match E.propsSI "H" "P" (PropVal.num v.1) "T" (PropVal.num v.2),
          E.propsSI "S" "P" (PropVal.num v.1) "T" (PropVal.num v.2) with
    | some hv, some sv => some (hv - h, sv - s)
    | _, _ => none
  match E.fsolveRes eqns (100000, 500) with
  | Except.ok r => Except.ok r
  | Except.error m => Except.error (Err.unhandled m)

/-- `solve_rhoT(v1, v2)`: heuristic role assignment, then a bracketed
root find for P over [1e3, 1e8] on the density residual. -/
def solve_rhoT (E : Externals) (v1 v2 : ℚ) : Except Err (ℚ × ℚ) :=
  let rho := roleOver1 v1 v2
  let T := roleOther1 v1 v2
  let f := fun P => (E.propsSI "D" "P" (PropVal.num P) "T" (PropVal.num T)).map (fun v => v - rho)
  (brentq E f 1000 100000000).map (fun P => (P, T))

/-- Python two-element set equality `{n1, n2} == {a, b}` for the
distinct literals used by the dispatcher. -/
def pairEq (n1 n2 a b : String) : Bool :=
  (n1 = a ∧ n2 = b) ∨ (n1 = b ∧ n2 = a)

/-- `dispatch_solver(n1, v1, n2, v2)`: forms the unordered name pair
and routes to the matching solver; the quality slot is filled only by
the `Px`/`Tx` solvers; an unrecognized pair raises
`HTTPException(400, "Unsupported input pair")`. -/
def dispatch_solver (E : Externals) (n1 : String) (v1 : ℚ) (n2 : String) (v2 : ℚ) :
    Except Err (ℚ × ℚ × Option ℚ) :=
  if pairEq n1 n2 "P" "T" then
    let PT := solve_PT v1 v2
    Except.ok (PT.1, PT.2, none)
  else if pairEq n1 n2 "P" "X" then
    match solve_Px E v1 v2 with
    | Except.ok (P, T, x) => Except.ok (P, T, some x)
    | Except.error e => Except.error e
  else if pairEq n1 n2 "T" "X" then
    match solve_Tx E v1 v2 with
    | Except.ok (P, T, x) => Except.ok (P, T, some x)
    | Except.error e => Except.error e
  else if pairEq n1 n2 "P" "H" then
    match solve_Ph E v1 v2 with
    | Except.ok (P, T) => Except.ok (P, T, none)
    | Except.error e => Except.error e
  else if pairEq n1 n2 "P" "S" then
    match solve_Ps E v1 v2 with
    | Except.ok (P, T) => Except.ok (P, T, none)
    | Except.error e => Except.error e
  else if pairEq n1 n2 "H" "S" then
    match solve_hs E v1 v2 with
    | Except.ok (P, T) => Except.ok (P, T, none)
    | Except.error e => Except.error e
  else if pairEq n1 n2 "D" "T" then
    match solve_rhoT E v1 v2 with
    | Except.ok (P, T) => Except.ok (P, T, none)
    | Except.error e => Except.error e
  else
    Except.error (Err.http 400 "Unsupported input pair")

/-- The request body: two positional (name, value) inputs. -/
structure StateRequest where
  input1_name : String
  input1_value : ℚ
  input2_name : String
  input2_value : ℚ
deriving DecidableEq

/-- The response body of a successful resolution. -/
structure StateResponse where
  T : ℚ
  P : ℚ
  phase : String
  quality : Option ℚ
  density : ℚ
  specific_volume : ℚ
  cp : ℚ
  cv : ℚ
  entropy : ℚ
  enthalpy : ℚ
  conductivity : ℚ
  viscosity : Option ℚ
deriving DecidableEq

/-- The trailing property queries of `solve_state` (cp, cv, entropy,
enthalpy, conductivity, and viscosity, the last suppressed for ice),
evaluated in source order with the first failure propagating. -/
def derived_props (E : Externals) (P T : ℚ) (phase : String) :
    Except Err (ℚ × ℚ × ℚ × ℚ × ℚ × Option ℚ) :=
  match prop E "Cpmass" P T with
  | Except.error e => Except.error e
  | Except.ok cp =>
    match prop E "Cvmass" P T with
    | Except.error e => Except.error e
    | Except.ok cv =>
      match prop E "Smass" P T with
      | Except.error e => Except.error e
      | Except.ok s =>
        match prop E "Hmass" P T with
        | Except.error e => Except.error e
        | Except.ok h =>
          match prop E "conductivity" P T with
          | Except.error e => Except.error e
          | Except.ok k =>
            if phase = "ice" then Except.ok (cp, cv, s, h, k, none)
            else
              match prop E "viscosity" P T with
              | Except.error e => Except.error e
              | Except.ok mu => Except.ok (cp, cv, s, h, k, some mu)

/-- Python `str.upper()` on a property name (structural model of
`String.toUpper`, identical on the ASCII names involved). -/
def upper (s : String) : String :=
  ⟨s.data.map Char.toUpper⟩

/-- `solve_state(req)`: upper-case the names, dispatch, classify the
phase, reject ice+quality, then assemble the response with
`specific_volume = 1/density` (Python raises `ZeroDivisionError` when
the density is exactly zero). -/
def solve_state (E : Externals) (req : StateRequest) : Except Err StateResponse :=
  let n1 := upper req.input1_name
  let n2 := upper req.input2_name
  match dispatch_solver E n1 req.input1_value n2 req.input2_value with
  | Except.error e => Except.error e
  | Except.ok (P, T, quality) =>
    match detect_phase_PT E P T with
    | Except.error e => Except.error e
    | Except.ok phase =>
      if phase = "ice" ∧ quality ≠ none then
        Except.error (Err.http 400 "Quality is not defined for ice")
      else
        match prop E "D" P T with
        | Except.error e => Except.error e
        | Except.ok density =>
          if density = 0 then
            Except.error (Err.unhandled "ZeroDivisionError: float division by zero")
          else
            match derived_props E P T phase with
            | Except.error e => Except.error e
            | Except.ok (cp, cv, s, h, k, mu) =>
              Except.ok ⟨T, P, phase, quality, density, 1/density, cp, cv, s, h, k, mu⟩

/-- The unordered pairs the dispatcher recognizes (the claim's list
{P,T}, {P,X}, {T,X}, {P,H}, {P,S}, {H,S}, {D,T}). -/
def supportedPair (n1 n2 : String) : Bool :=
  pairEq n1 n2 "P" "T" || pairEq n1 n2 "P" "X" || pairEq n1 n2 "T" "X" ||
  pairEq n1 n2 "P" "H" || pairEq n1 n2 "P" "S" || pairEq n1 n2 "H" "S" ||
  pairEq n1 n2 "D" "T"

/-- Mutual consistency of the evaluator's saturation queries: the
saturated temperature at a pressure does not depend on the quality
argument, and the saturated pressure at a temperature maps back to
that temperature.  CoolProp satisfies both for a pure fluid. -/
def SatConsistent (E : Externals) : Prop :=
  (∀ p x : ℚ, E.propsSI "T" "P" (PropVal.num p) "Q" (PropVal.num x) =
      E.propsSI "T" "P" (PropVal.num p) "Q" (PropVal.num 0)) ∧
  (∀ t x p : ℚ, E.propsSI "P" "T" (PropVal.num t) "Q" (PropVal.num x) = some p →
      E.propsSI "T" "P" (PropVal.num p) "Q" (PropVal.num 0) = some t)

/-- A concrete, saturation-consistent test evaluator: the melting-line
query fails (exercising the 273.15 fallback), the saturation
temperature is constantly 373, the saturated-pressure query fails,
density is 1000, and every other property is 1.  The `brentq`
iteration and `fsolve` return fixed values. -/
def toyExt : Externals :=
  ⟨fun out n1 _ n2 _ =>
      if out = "T" ∧ n1 = "P" ∧ n2 = "phase" then none
      else if out = "T" then some 373
      else if out = "P" then none
      else if out = "D" then some 1000
      else some 1,
   fun _ _ _ => Except.ok 300,
   fun _ _ => Except.ok (100000, 500)⟩

/-- A concrete test evaluator whose melting line sits at 500 K, so
every resolved state below 500 K classifies as ice: the saturation
temperature is constantly 300, the saturation pressure 101325, density
1000, everything else 1. -/
def iceExt : Externals :=
  ⟨fun out n1 _ n2 _ =>
      if out = "T" ∧ n1 = "P" ∧ n2 = "phase" then some 500
      else if out = "T" then some 300
      else if out = "P" then some 101325
      else if out = "D" then some 1000
      else some 1,
   fun _ _ _ => Except.ok 300,
   fun _ _ => Except.ok (100000, 500)⟩

lemma solve_state_ok_parts (E : Externals) (req : StateRequest) (resp : StateResponse)
    (h : solve_state E req = Except.ok resp) :
    ∃ q ph,
      dispatch_solver E (upper req.input1_name) req.input1_value
        (upper req.input2_name) req.input2_value = Except.ok (resp.P, resp.T, q) ∧
      detect_phase_PT E resp.P resp.T = Except.ok ph ∧
      ¬ (ph = "ice" ∧ q ≠ none) ∧
      resp.quality = q ∧ resp.phase = ph ∧
      resp.density ≠ 0 ∧ resp.specific_volume = 1 / resp.density := by
  unfold solve_state at h
  dsimp only at h
  split at h
  · exact absurd h (by simp)
  case _ P T quality heqd =>
    split at h
    · exact absurd h (by simp)
    case _ phase heqp =>
      split at h
      · exact absurd h (by simp)
      case _ hnotice =>
        split at h
        · exact absurd h (by simp)
        case _ density heqdens =>
          split at h
          · exact absurd h (by simp)
          case _ hdnz =>
            split at h
            · exact absurd h (by simp)
            case _ cp cv s hh k mu heqder =>
              injection h with h
              subst h
              exact ⟨quality, phase, heqd, heqp, hnotice, rfl, rfl, hdnz, rfl⟩

lemma dispatch_ok_quality_cases (E : Externals) (n1 : String) (v1 : ℚ) (n2 : String) (v2 : ℚ)
    (P T x : ℚ) (h : dispatch_solver E n1 v1 n2 v2 = Except.ok (P, T, some x)) :
    solve_Px E v1 v2 = Except.ok (P, T, x) ∨ solve_Tx E v1 v2 = Except.ok (P, T, x) := by
  unfold dispatch_solver at h
  split_ifs at h
  · exact absurd h (by simp [solve_PT])
  · left
    cases hpx : solve_Px E v1 v2 with
    | error e => rw [hpx] at h; simp at h
    | ok val =>
      obtain ⟨P0, T0, x0⟩ := val
      rw [hpx] at h
      simp only [Except.ok.injEq, Prod.mk.injEq, Option.some.injEq] at h
      obtain ⟨rfl, rfl, rfl⟩ := h
      rfl
  · right
    cases htx : solve_Tx E v1 v2 with
    | error e => rw [htx] at h; simp at h
    | ok val =>
      obtain ⟨P0, T0, x0⟩ := val
      rw [htx] at h
      simp only [Except.ok.injEq, Prod.mk.injEq, Option.some.injEq] at h
      obtain ⟨rfl, rfl, rfl⟩ := h
      rfl
  · cases hs : solve_Ph E v1 v2 with
    | error e => rw [hs] at h; simp at h
    | ok val => obtain ⟨P0, T0⟩ := val; rw [hs] at h; simp at h
  · cases hs : solve_Ps E v1 v2 with
    | error e => rw [hs] at h; simp at h
    | ok val => obtain ⟨P0, T0⟩ := val; rw [hs] at h; simp at h
  · cases hs : solve_hs E v1 v2 with
    | error e => rw [hs] at h; simp at h
    | ok val => obtain ⟨P0, T0⟩ := val; rw [hs] at h; simp at h
  · cases hs : solve_rhoT E v1 v2 with
    | error e => rw [hs] at h; simp at h
    | ok val => obtain ⟨P0, T0⟩ := val; rw [hs] at h; simp at h

lemma solve_Px_ok_query (E : Externals) (v1 v2 P T x : ℚ)
    (h : solve_Px E v1 v2 = Except.ok (P, T, x)) :
    E.propsSI "T" "P" (PropVal.num P) "Q" (PropVal.num x) = some T := by
  unfold solve_Px at h
  dsimp only at h
  split_ifs at h with hcond
  cases hq : E.propsSI "T" "P" (PropVal.num (roleOver1 v1 v2))
      "Q" (PropVal.num (roleOther1 v1 v2)) with
  | none => rw [hq] at h; simp at h
  | some T0 =>
    rw [hq] at h
    simp only [Except.ok.injEq, Prod.mk.injEq] at h
    obtain ⟨rfl, rfl, rfl⟩ := h
    exact hq

lemma solve_Tx_ok_query (E : Externals) (v1 v2 P T x : ℚ)
    (h : solve_Tx E v1 v2 = Except.ok (P, T, x)) :
    E.propsSI "P" "T" (PropVal.num T) "Q" (PropVal.num x) = some P := by
  unfold solve_Tx at h
  dsimp only at h
  split_ifs at h with hcond
  cases hq : E.propsSI "P" "T" (PropVal.num (roleOver200 v1 v2))
      "Q" (PropVal.num (roleOther200 v1 v2)) with
  | none => rw [hq] at h; simp at h
  | some P0 =>
    rw [hq] at h
    simp only [Except.ok.injEq, Prod.mk.injEq] at h
    obtain ⟨rfl, rfl, rfl⟩ := h
    exact hq

lemma detect_ok_of_sat (E : Externals) (P T : ℚ)
    (hsat : E.propsSI "T" "P" (PropVal.num P) "Q" (PropVal.num 0) = some T) :
    detect_phase_PT E P T = Except.ok "ice" ∨ detect_phase_PT E P T = Except.ok "saturated" := by
  unfold detect_phase_PT
  rw [hsat]
  dsimp only
  by_cases hice : T < melting_temperature E P
  · left
    rw [if_pos hice]
  · right
    rw [if_neg hice, if_pos (by rw [sub_self, abs_zero]; norm_num)]

lemma satConsistent_toyExt : SatConsistent toyExt := by
  constructor
  · intro p x
    rfl
  · intro t x p h
    exact Option.noConfusion h

lemma upper_P : upper "P" = "P" := by decide

lemma upper_T : upper "T" = "T" := by decide

lemma upper_X : upper "X" = "X" := by decide

lemma upper_H : upper "H" = "H" := by decide

lemma upper_D : upper "D" = "D" := by decide

/-- Claim C1: the spec demands `resolve({P: p, T: t}) = resolve({T: t, P: p})`
for valid positive inputs, but the code resolves the `{P,T}` pair
positionally: sending the temperature first yields the swapped state
(P = 300, T = 101325) instead of (P = 101325, T = 300), so the two
orders give different resolved states. -/
theorem c1_pt_order_dependent :
    solve_state toyExt ⟨"T", 300, "P", 101325⟩ =
      Except.ok ⟨101325, 300, "superheated_vapor", none, 1000, 1/1000, 1, 1, 1, 1, 1, some 1⟩ ∧
    solve_state toyExt ⟨"P", 101325, "T", 300⟩ =
      Except.ok ⟨300, 101325, "subcooled_liquid", none, 1000, 1/1000, 1, 1, 1, 1, 1, some 1⟩ ∧
    solve_state toyExt ⟨"T", 300, "P", 101325⟩ ≠ solve_state toyExt ⟨"P", 101325, "T", 300⟩ := by
  refine ⟨?_, ?_, ?_⟩ <;>
    simp [solve_state, upper_P, upper_T, dispatch_solver, pairEq, solve_PT,
      detect_phase_PT, melting_temperature, prop, derived_props, toyExt, Option.getD_none,
      (by norm_num : ¬ ((101325:ℚ) < 273.15)),
      (by norm_num : ¬ (|(101325:ℚ) - 373| < 1000⁻¹)),
      (by norm_num : (373:ℚ) < 101325),
      (by norm_num : ¬ ((300:ℚ) < 273.15)),
      (by norm_num : ¬ (|(300:ℚ) - 373| < 1000⁻¹)),
      (by norm_num : ¬ ((373:ℚ) < 300)),
      (by norm_num : ¬ ((1000:ℚ) = 0))]

/-- Claim C2, counterexample: a `{P,T}` request sitting exactly on the
saturation line resolves with `phase = "saturated"` but `quality = none`,
refuting the claimed "quality present iff phase saturated". -/
theorem c2_counterexample :
    solve_state toyExt ⟨"P", 101325, "T", 373⟩ =
      Except.ok ⟨373, 101325, "saturated", none, 1000, 1/1000, 1, 1, 1, 1, 1, some 1⟩ := by
  simp [solve_state, upper_P, upper_T, dispatch_solver, pairEq, solve_PT,
    detect_phase_PT, melting_temperature, prop, derived_props, toyExt, Option.getD_none,
    (by norm_num : ¬ ((373:ℚ) < 273.15)),
    (by norm_num : |(373:ℚ) - 373| < 1000⁻¹),
    (by norm_num : ¬ ((1000:ℚ) = 0))]

/-- Claim C2, amended: whenever a successfully resolved state carries a
quality (which only the `{P,X}`/`{T,X}` solvers produce) and the
evaluator's saturation queries are mutually consistent, the classified
phase is the saturated tag — so quality is never present for ice,
subcooled liquid or superheated vapor; the converse direction of the
original claim fails (see the counterexample). -/
theorem c2_quality_implies_saturated (E : Externals) (req : StateRequest) (resp : StateResponse)
    (hcons : SatConsistent E) (hok : solve_state E req = Except.ok resp)
    (hq : resp.quality ≠ none) : resp.phase = "saturated" := by
  obtain ⟨q, ph, hdisp, hdet, hnotice, hq', hph, -, -⟩ := solve_state_ok_parts E req resp hok
  rw [hq'] at hq
  obtain ⟨x, rfl⟩ : ∃ x, q = some x := Option.ne_none_iff_exists'.mp hq
  have hsat : E.propsSI "T" "P" (PropVal.num resp.P) "Q" (PropVal.num 0) = some resp.T := by
    rcases dispatch_ok_quality_cases E _ _ _ _ _ _ _ hdisp with hpx | htx
    · have hquery := solve_Px_ok_query E _ _ _ _ _ hpx
      rw [← hcons.1 resp.P x]
      exact hquery
    · exact hcons.2 resp.T x resp.P (solve_Tx_ok_query E _ _ _ _ _ htx)
  rcases detect_ok_of_sat E resp.P resp.T hsat with hice | hsatphase
  · have : ph = "ice" := by
      have h2 := hdet.symm.trans hice
      injection h2
    exact absurd ⟨this, by simp⟩ hnotice
  · have h2 := hdet.symm.trans hsatphase
    injection h2 with h2
    rw [hph, h2]

/-- Claim C2, witness: the amended theorem applied to a concrete
`{P,X}` resolution through the consistent test evaluator. -/
theorem c2_witness :
    SatConsistent toyExt ∧
    (⟨373, 101325, "saturated", some 0, 1000, 1/1000, 1, 1, 1, 1, 1, some 1⟩ :
      StateResponse).phase = "saturated" :=
  ⟨satConsistent_toyExt,
   c2_quality_implies_saturated toyExt ⟨"P", 101325, "X", 0⟩ _
     satConsistent_toyExt
     (by
       simp [solve_state, upper_P, upper_X, dispatch_solver, pairEq, solve_Px,
         roleOver1, roleOther1, detect_phase_PT, melting_temperature, prop,
         derived_props, toyExt, Option.getD_none,
         (by norm_num : (1:ℚ) < 101325),
         (by norm_num : ¬ ((373:ℚ) < 273.15)),
         (by norm_num : |(373:ℚ) - 373| < 1000⁻¹),
         (by norm_num : ¬ ((1000:ℚ) = 0))])
     (by simp)⟩

/-- Claim C3, counterexample: the request supplies `X = 2` (outside
[0,1]) and `P = 1/2`, yet resolution succeeds — the magnitude heuristic
takes the value 2 as the pressure and 1/2 as the quality, so the range
check never sees the supplied quality. -/
theorem c3_counterexample :
    solve_state toyExt ⟨"X", 2, "P", 0⟩ =
      Except.ok ⟨373, 2, "saturated", some 0, 1000, 1/1000, 1, 1, 1, 1, 1, some 1⟩ := by
  simp [solve_state, upper_P, upper_X, dispatch_solver, pairEq, solve_Px,
    roleOver1, roleOther1, detect_phase_PT, melting_temperature, prop, derived_props,
    toyExt, Option.getD_none,
    (by norm_num : (1:ℚ) < 2),
    (by norm_num : ¬ ((373:ℚ) < 273.15)),
    (by norm_num : |(373:ℚ) - 373| < 1000⁻¹),
    (by norm_num : ¬ ((1000:ℚ) = 0))]

/-- Claim C3, amended: the [0,1] range check applies to the value the
magnitude heuristic assigns to quality (the value not picked as
pressure by the threshold-1 rule, resp. not picked as temperature by
the threshold-200 rule), not to the value named X.  If that assigned
value is outside [0,1] the request fails with the 400 quality
`HTTPException` and no state is returned; if it is inside, that
exception is never raised. -/
theorem c3_heuristic_quality_check :
    (∀ (E : Externals) (req : StateRequest),
      pairEq (upper req.input1_name) (upper req.input2_name) "P" "X" = true →
      ¬ (0 ≤ roleOther1 req.input1_value req.input2_value ∧
          roleOther1 req.input1_value req.input2_value ≤ 1) →
      solve_state E req = Except.error (Err.http 400 "Quality must be between 0 and 1")) ∧
    (∀ (E : Externals) (v1 v2 : ℚ),
      0 ≤ roleOther1 v1 v2 ∧ roleOther1 v1 v2 ≤ 1 →
      solve_Px E v1 v2 ≠ Except.error (Err.http 400 "Quality must be between 0 and 1")) ∧
    (∀ (E : Externals) (req : StateRequest),
      pairEq (upper req.input1_name) (upper req.input2_name) "T" "X" = true →
      ¬ (0 ≤ roleOther200 req.input1_value req.input2_value ∧
          roleOther200 req.input1_value req.input2_value ≤ 1) →
      solve_state E req = Except.error (Err.http 400 "Quality must be between 0 and 1")) ∧
    (∀ (E : Externals) (v1 v2 : ℚ),
      0 ≤ roleOther200 v1 v2 ∧ roleOther200 v1 v2 ≤ 1 →
      solve_Tx E v1 v2 ≠ Except.error (Err.http 400 "Quality must be between 0 and 1")) := by
  have hPx : ∀ (E : Externals) (v1 v2 : ℚ),
      ¬ (0 ≤ roleOther1 v1 v2 ∧ roleOther1 v1 v2 ≤ 1) →
      solve_Px E v1 v2 = Except.error (Err.http 400 "Quality must be between 0 and 1") := by
    intro E v1 v2 hout
    unfold solve_Px
    dsimp only
    rw [if_pos hout]
  have hTx : ∀ (E : Externals) (v1 v2 : ℚ),
      ¬ (0 ≤ roleOther200 v1 v2 ∧ roleOther200 v1 v2 ≤ 1) →
      solve_Tx E v1 v2 = Except.error (Err.http 400 "Quality must be between 0 and 1") := by
    intro E v1 v2 hout
    unfold solve_Tx
    dsimp only
    rw [if_pos hout]
  refine ⟨?_, ?_, ?_, ?_⟩
  · intro E req hpair hout
    simp only [pairEq, decide_eq_true_eq] at hpair
    unfold solve_state
    dsimp only
    rcases hpair with ⟨h1, h2⟩ | ⟨h1, h2⟩ <;>
      rw [h1, h2] <;>
      simp [dispatch_solver, pairEq, hPx E _ _ hout]
  · intro E v1 v2 hin hcontra
    unfold solve_Px at hcontra
    dsimp only at hcontra
    rw [if_neg (not_not_intro hin)] at hcontra
    cases hq : E.propsSI "T" "P" (PropVal.num (roleOver1 v1 v2))
        "Q" (PropVal.num (roleOther1 v1 v2)) with
    | none => rw [hq] at hcontra; simp at hcontra
    | some T0 => rw [hq] at hcontra; simp at hcontra
  · intro E req hpair hout
    simp only [pairEq, decide_eq_true_eq] at hpair
    unfold solve_state
    dsimp only
    rcases hpair with ⟨h1, h2⟩ | ⟨h1, h2⟩ <;>
      rw [h1, h2] <;>
      simp [dispatch_solver, pairEq, hTx E _ _ hout]
  · intro E v1 v2 hin hcontra
    unfold solve_Tx at hcontra
    dsimp only at hcontra
    rw [if_neg (not_not_intro hin)] at hcontra
    cases hq : E.propsSI "P" "T" (PropVal.num (roleOver200 v1 v2))
        "Q" (PropVal.num (roleOther200 v1 v2)) with
    | none => rw [hq] at hcontra; simp at hcontra
    | some P0 => rw [hq] at hcontra; simp at hcontra

/-- Claim C3, witness: the amended theorem applied to a concrete `{P,X}`
request whose heuristically assigned quality (2) is outside [0,1]. -/
theorem c3_witness :
    solve_state toyExt ⟨"P", 101325, "X", 2⟩ =
      Except.error (Err.http 400 "Quality must be between 0 and 1") :=
  c3_heuristic_quality_check.1 toyExt ⟨"P", 101325, "X", 2⟩ (by decide) (by decide)

/-- Claim C4: given a successful saturation-temperature query, the phase
classifier applies its four tests in the fixed source order with the
first match winning: melting-line check, saturation-band check
(tolerance 1/1000), superheat check, else subcooled liquid. -/
theorem c4_phase_decision_order (E : Externals) (P T Tsat : ℚ)
    (hq : E.propsSI "T" "P" (PropVal.num P) "Q" (PropVal.num 0) = some Tsat) :
    (T < melting_temperature E P → detect_phase_PT E P T = Except.ok "ice") ∧
    (¬ T < melting_temperature E P → |T - Tsat| < 1/1000 →
      detect_phase_PT E P T = Except.ok "saturated") ∧
    (¬ T < melting_temperature E P → ¬ |T - Tsat| < 1/1000 → Tsat < T →
      detect_phase_PT E P T = Except.ok "superheated_vapor") ∧
    (¬ T < melting_temperature E P → ¬ |T - Tsat| < 1/1000 → ¬ Tsat < T →
      detect_phase_PT E P T = Except.ok "subcooled_liquid") := by
  unfold detect_phase_PT
  rw [hq]
  dsimp only
  refine ⟨fun h1 => ?_, fun h1 h2 => ?_, fun h1 h2 h3 => ?_, fun h1 h2 h3 => ?_⟩
  · rw [if_pos h1]
  · rw [if_neg h1, if_pos h2]
  · rw [if_neg h1, if_neg h2, if_pos h3]
  · rw [if_neg h1, if_neg h2, if_neg h3]

/-- Claim C4, witness: the classifier theorem applied at a concrete
state below the melting line. -/
theorem c4_witness :
    (200:ℚ) < melting_temperature toyExt 101325 ∧
    detect_phase_PT toyExt 101325 200 = Except.ok "ice" := by
  have hlt : (200:ℚ) < melting_temperature toyExt 101325 := by
    rw [show melting_temperature toyExt 101325 = (273.15:ℚ) from rfl]
    norm_num
  exact ⟨hlt, (c4_phase_decision_order toyExt 101325 200 373 rfl).1 hlt⟩

/-- Claim C5: when the oracle's melting-line query fails, the helper
returns the default 273.15 K instead of propagating the failure, and
phase classification proceeds with that default. -/
theorem c5_melting_fallback (E : Externals) (P : ℚ)
    (hfail : E.propsSI "T" "P" (PropVal.num P) "phase" (PropVal.str "solid") = none) :
    melting_temperature E P = 273.15 ∧
    (∀ T Tsat : ℚ, E.propsSI "T" "P" (PropVal.num P) "Q" (PropVal.num 0) = some Tsat →
      detect_phase_PT E P T =
        Except.ok (if T < 273.15 then "ice"
          else if |T - Tsat| < 1/1000 then "saturated"
          else if Tsat < T then "superheated_vapor"
          else "subcooled_liquid")) := by
  have hm : melting_temperature E P = 273.15 := by
    unfold melting_temperature
    rw [hfail]
    rfl
  refine ⟨hm, fun T Tsat hq => ?_⟩
  unfold detect_phase_PT
  rw [hq, hm]
  dsimp only
  split_ifs <;> rfl

/-- Claim C5, witness: the fallback theorem applied to the test
evaluator whose melting-line query fails. -/
theorem c5_witness :
    melting_temperature toyExt 101325 = 273.15 ∧
    detect_phase_PT toyExt 101325 250 = Except.ok "ice" := by
  have h := c5_melting_fallback toyExt 101325 rfl
  have h2 := h.2 250 373 rfl
  rw [if_pos (by norm_num : (250:ℚ) < 273.15)] at h2
  exact ⟨h.1, h2⟩

/-- Claim C6: a request whose (upper-cased) unordered name pair is not
one of the seven supported pairs fails with the 400 "Unsupported input
pair" `HTTPException`, which FastAPI surfaces as a client error, never
a 5xx or an unhandled crash. -/
theorem c6_unsupported_pair (E : Externals) (req : StateRequest)
    (h : supportedPair (upper req.input1_name) (upper req.input2_name) = false) :
    solve_state E req = Except.error (Err.http 400 "Unsupported input pair") ∧
    isClientError (Err.http 400 "Unsupported input pair") = true := by
  refine ⟨?_, rfl⟩
  simp only [supportedPair, Bool.or_eq_false_iff] at h
  obtain ⟨⟨⟨⟨⟨⟨h1, h2⟩, h3⟩, h4⟩, h5⟩, h6⟩, h7⟩ := h
  unfold solve_state
  dsimp only
  unfold dispatch_solver
  simp [h1, h2, h3, h4, h5, h6, h7]

/-- Claim C6, witness: the unsupported pair {X, D}. -/
theorem c6_witness :
    solve_state toyExt ⟨"X", 1/2, "D", 900⟩ =
      Except.error (Err.http 400 "Unsupported input pair") :=
  (c6_unsupported_pair toyExt ⟨"X", 1/2, "D", 900⟩ (by decide)).1

/-- Claim C7: every successfully resolved state has
`specific_volume = 1/density` (it is derived, not queried), and their
product is exactly 1. -/
theorem c7_specific_volume_reciprocal (E : Externals) (req : StateRequest) (resp : StateResponse)
    (hok : solve_state E req = Except.ok resp) :
    resp.specific_volume = 1 / resp.density ∧
    resp.specific_volume * resp.density = 1 := by
  obtain ⟨q, ph, -, -, -, -, -, hdnz, hsv⟩ := solve_state_ok_parts E req resp hok
  refine ⟨hsv, ?_⟩
  rw [hsv]
  exact one_div_mul_cancel hdnz

/-- Claim C7, witness: the reciprocal invariant on a concrete resolved
state. -/
theorem c7_witness :
    (⟨300, 101325, "subcooled_liquid", none, 1000, 1/1000, 1, 1, 1, 1, 1, some 1⟩ :
        StateResponse).specific_volume *
      (⟨300, 101325, "subcooled_liquid", none, 1000, 1/1000, 1, 1, 1, 1, 1, some 1⟩ :
        StateResponse).density = 1 :=
  (c7_specific_volume_reciprocal toyExt ⟨"P", 101325, "T", 300⟩ _ (by
    simp [solve_state, upper_P, upper_T, dispatch_solver, pairEq, solve_PT,
      detect_phase_PT, melting_temperature, prop, derived_props, toyExt, Option.getD_none,
      (by norm_num : ¬ ((300:ℚ) < 273.15)),
      (by norm_num : ¬ (|(300:ℚ) - 373| < 1000⁻¹)),
      (by norm_num : ¬ ((373:ℚ) < 300)),
      (by norm_num : ¬ ((1000:ℚ) = 0))])).2

/-- Claim C8, counterexample: when the enthalpy residual has no sign
change over the fixed bracket, the bracketing solver's `ValueError` is
not caught by any handler — the request dies with an unhandled
exception (a FastAPI 500), not the claimed 4xx client error. -/
theorem c8_counterexample :
    solve_state toyExt ⟨"P", 101325, "H", 5⟩ =
      Except.error (Err.unhandled "ValueError: f(a) and f(b) must have different signs") ∧
    isClientError (Err.unhandled "ValueError: f(a) and f(b) must have different signs") = false := by
  refine ⟨?_, rfl⟩
  simp [solve_state, upper_P, upper_H, dispatch_solver, pairEq, solve_Ph, brentq,
    roleOver1, roleOther1, Option.map, Except.map, toyExt,
    (by norm_num : (1:ℚ) < 101325),
    (by norm_num : (0:ℚ) < ((1:ℚ) - 5) * ((1:ℚ) - 5))]

/-- Claim C8, amended: the `{P,H}`, `{P,S}`, `{D,T}` solvers do run a
bracketed root find over the fixed domains 250–2000 K (temperature
unknown) and 1e3–1e8 Pa (pressure unknown), but when the residual has
no sign change over that bracket the resulting `ValueError` surfaces
as an unhandled exception (5xx), not as a 4xx client error. -/
theorem c8_root_bracket_failure :
    (∀ (E : Externals) (p h Ha Hb : ℚ), 1 < p →
      E.propsSI "H" "P" (PropVal.num p) "T" (PropVal.num 250) = some Ha →
      E.propsSI "H" "P" (PropVal.num p) "T" (PropVal.num 2000) = some Hb →
      0 < (Ha - h) * (Hb - h) →
      solve_Ph E p h =
        Except.error (Err.unhandled "ValueError: f(a) and f(b) must have different signs")) ∧
    (∀ (E : Externals) (p s Sa Sb : ℚ), 1 < p →
      E.propsSI "S" "P" (PropVal.num p) "T" (PropVal.num 250) = some Sa →
      E.propsSI "S" "P" (PropVal.num p) "T" (PropVal.num 2000) = some Sb →
      0 < (Sa - s) * (Sb - s) →
      solve_Ps E p s =
        Except.error (Err.unhandled "ValueError: f(a) and f(b) must have different signs")) ∧
    (∀ (E : Externals) (rho T Da Db : ℚ), 1 < rho →
      E.propsSI "D" "P" (PropVal.num 1000) "T" (PropVal.num T) = some Da →
      E.propsSI "D" "P" (PropVal.num 100000000) "T" (PropVal.num T) = some Db →
      0 < (Da - rho) * (Db - rho) →
      solve_rhoT E rho T =
        Except.error (Err.unhandled "ValueError: f(a) and f(b) must have different signs")) ∧
    isClientError (Err.unhandled "ValueError: f(a) and f(b) must have different signs") = false := by
  refine ⟨?_, ?_, ?_, rfl⟩
  · intro E p h Ha Hb hp h250 h2000 hsign
    have hro : roleOver1 p h = p := by unfold roleOver1; exact if_pos hp
    have hot : roleOther1 p h = h := by unfold roleOther1; rw [hro, if_pos rfl]
    unfold solve_Ph brentq
    dsimp only
    rw [hro, hot, h250, h2000]
    dsimp only [Option.map]
    rw [if_pos hsign]
    rfl
  · intro E p s Sa Sb hp h250 h2000 hsign
    have hro : roleOver1 p s = p := by unfold roleOver1; exact if_pos hp
    have hot : roleOther1 p s = s := by unfold roleOther1; rw [hro, if_pos rfl]
    unfold solve_Ps brentq
    dsimp only
    rw [hro, hot, h250, h2000]
    dsimp only [Option.map]
    rw [if_pos hsign]
    rfl
  · intro E rho T Da Db hrho h1e3 h1e8
    intro hsign
    have hro : roleOver1 rho T = rho := by unfold roleOver1; exact if_pos hrho
    have hot : roleOther1 rho T = T := by unfold roleOther1; rw [hro, if_pos rfl]
    unfold solve_rhoT brentq
    dsimp only
    rw [hro, hot, h1e3, h1e8]
    dsimp only [Option.map]
    rw [if_pos hsign]
    rfl

/-- Claim C8, witness: the amended theorem at a concrete sign-change
failure (constant enthalpy 1, target 5). -/
theorem c8_witness :
    solve_Ph toyExt 101325 5 =
      Except.error (Err.unhandled "ValueError: f(a) and f(b) must have different signs") :=
  c8_root_bracket_failure.1 toyExt 101325 5 1 1 (by norm_num) rfl rfl (by norm_num)

/-- Claim C9: if the dispatcher produced a quality (the request pair
carried one) and the classifier assigns the resolved (P,T) to ice, the
request fails with the 400 "Quality is not defined for ice"
`HTTPException` and no state is returned. -/
theorem c9_ice_quality_rejected (E : Externals) (req : StateRequest) (P T x : ℚ)
    (hdisp : dispatch_solver E (upper req.input1_name) req.input1_value
        (upper req.input2_name) req.input2_value = Except.ok (P, T, some x))
    (hice : detect_phase_PT E P T = Except.ok "ice") :
    solve_state E req = Except.error (Err.http 400 "Quality is not defined for ice") := by
  unfold solve_state
  dsimp only
  rw [hdisp]
  dsimp only
  rw [hice]
  dsimp only
  rw [if_pos ⟨rfl, by simp⟩]

/-- Claim C9, witness: a `{P,X}` request resolving below the melting
line of the ice-heavy test evaluator. -/
theorem c9_witness :
    solve_state iceExt ⟨"P", 101325, "X", 0⟩ =
      Except.error (Err.http 400 "Quality is not defined for ice") :=
  c9_ice_quality_rejected iceExt ⟨"P", 101325, "X", 0⟩ 101325 300 0 rfl rfl

/-- Claim C10: for the heuristic pairs the dispatcher routes both name
orders to the same solver call (role assignment never consults the
names), and for `{P,X}` the threshold-1 heuristic assigns the roles
correctly — in both argument orders — for every quality in [0,1]
whenever the pressure value exceeds 1. -/
theorem c10_value_heuristic_roles :
    (∀ (E : Externals) (a b : ℚ),
      dispatch_solver E "P" a "X" b = dispatch_solver E "X" a "P" b ∧
      dispatch_solver E "T" a "X" b = dispatch_solver E "X" a "T" b ∧
      dispatch_solver E "P" a "H" b = dispatch_solver E "H" a "P" b ∧
      dispatch_solver E "P" a "S" b = dispatch_solver E "S" a "P" b ∧
      dispatch_solver E "D" a "T" b = dispatch_solver E "T" a "D" b) ∧
    ((∀ v1 v2 : ℚ, 1 < v1 → roleOver1 v1 v2 = v1) ∧
     (∀ v1 v2 : ℚ, ¬ 1 < v1 → roleOver1 v1 v2 = v2) ∧
     (∀ v1 v2 : ℚ, 200 < v1 → roleOver200 v1 v2 = v1) ∧
     (∀ v1 v2 : ℚ, ¬ 200 < v1 → roleOver200 v1 v2 = v2)) ∧
    (∀ (E : Externals) (p x : ℚ), 1 < p → 0 ≤ x → x ≤ 1 →
      solve_Px E p x = solve_Px E x p ∧
      ∀ T, E.propsSI "T" "P" (PropVal.num p) "Q" (PropVal.num x) = some T →
        solve_Px E p x = Except.ok (p, T, x)) := by
  refine ⟨?_, ?_, ?_⟩
  · intro E a b
    exact ⟨rfl, rfl, rfl, rfl, rfl⟩
  · refine ⟨fun v1 v2 h => ?_, fun v1 v2 h => ?_, fun v1 v2 h => ?_, fun v1 v2 h => ?_⟩ <;>
      first
        | exact if_pos h
        | exact if_neg h
  · intro E p x hp hx0 hx1
    have hxltp : x < p := lt_of_le_of_lt hx1 hp
    have hro1 : roleOver1 p x = p := by unfold roleOver1; exact if_pos hp
    have hro2 : roleOver1 x p = p := by unfold roleOver1; exact if_neg (not_lt.mpr hx1)
    have hot1 : roleOther1 p x = x := by unfold roleOther1; rw [hro1, if_pos rfl]
    have hot2 : roleOther1 x p = x := by unfold roleOther1; rw [hro2, if_neg (ne_of_gt hxltp)]
    constructor
    · unfold solve_Px
      dsimp only
      rw [hro1, hro2, hot1, hot2]
    · intro T hT
      unfold solve_Px
      dsimp only
      rw [hro1, hot1, if_neg (not_not_intro ⟨hx0, hx1⟩), hT]

/-- Claim C10, witness: the role heuristic at pressure 101325 and
quality 1/2, in both argument orders. -/
theorem c10_witness :
    (1:ℚ) < 101325 ∧
    solve_Px toyExt 101325 0 = solve_Px toyExt 0 101325 ∧
    solve_Px toyExt 101325 0 = Except.ok (101325, 373, 0) := by
  have h := c10_value_heuristic_roles.2.2 toyExt 101325 0
    (by norm_num) le_rfl zero_le_one
  exact ⟨by norm_num, h.1, h.2 373 rfl⟩

end WaterProps
